import Mathlib

/-!
Shallow embedding of the Spotify_Manager repository.

The fetch/mutate core lives in `src/spotify_manager.py` (class
`SpotifyManager`): paginated fetchers `get_top_tracks` / `get_liked_songs`,
the batched mutator `_process_in_batches`, its wrappers
`clear_liked_songs` / `add_liked_songs`, and the orchestrating workflow
`replace_liked_with_top`.  The OAuth/session core lives in
`src/backend/services/auth_service.py` (`get_current_user`,
`handle_spotify_callback`) and
`src/backend/services/database_service.py` (`update_or_create_user`).

The remote Spotify Web API is a collaborator: it is embedded as explicit
function parameters (a page provider `Nat → Option (List _)` mapping an
offset to the page returned there, with `none` standing for a raised
exception; a per-batch failure oracle `Nat → Bool` on the 1-based batch
number, `true` standing for the remote mutation call raising).  Blocking
sleeps (`time.sleep`) have no observable value; the embedding counts them.
Unbounded `while True` loops are embedded with an explicit fuel argument;
every claim supplies enough fuel for the run it describes.
-/

/-- A raw track object as returned by the provider: the fields
`spotify_manager.py` reads (`name`, `artists` as a list of artist names,
`id`, and `popularity` accessed with `track.get('popularity', 0)`). -/
structure Track where
  name : String
  artists : List String
  id : String
  popularity : Option Nat
  deriving Repr, DecidableEq

/-- A raw saved-tracks entry: `{'track': ..., 'added_at': ...}` where the
`track` reference may be null for since-removed tracks. -/
structure SavedItem where
  track : Option Track
  added_at : String
  deriving Repr, DecidableEq

/-- The normalized record built by `get_top_tracks` (lines 105-113). -/
structure FormattedTrack where
  index : Nat
  name : String
  artists : String
  id : String
  popularity : Nat
  deriving Repr, DecidableEq

/-- The normalized record built by `get_liked_songs` (lines 149-160). -/
structure LikedRecord where
  index : Nat
  name : String
  artists : String
  id : String
  added_at : String
  deriving Repr, DecidableEq

/-- Embeds `', '.join([artist['name'] for artist in track['artists']])`. -/
def joinArtists (names : List String) : String :=
  String.intercalate ", " names

/-- The pagination loop shared verbatim by `get_top_tracks` (lines 81-102)
and `get_liked_songs` (lines 131-147): request the page at `offset`;
on an exception (`none`) stop with nothing further accumulated; otherwise
append the page and stop if it is shorter than `limit`, else advance
`offset` by `limit` and continue.  Returns the accumulated items together
with the number of page requests issued. -/
def paginateLoop (provider : Nat → Option (List α)) (limit : Nat) :
    Nat → Nat → List α × Nat
  | 0, _ => ([], 0)
  | fuel + 1, offset =>
    match provider offset with
    | none => ([], 1)
    | some page =>
      if page.length < limit then (page, 1)
      else
        let r := paginateLoop provider limit fuel (offset + limit)
        (page ++ r.1, r.2 + 1)

/-- The formatting loop of `get_top_tracks`
(`for i, track in enumerate(all_top_tracks)`), carrying the 0-based
enumeration counter `i`. -/
def formatTopAux (i : Nat) : List Track → List FormattedTrack
  | [] => []
  | t :: ts =>
    { index := i + 1, name := t.name, artists := joinArtists t.artists,
      id := t.id, popularity := t.popularity.getD 0 } :: formatTopAux (i + 1) ts

/-- Formatting of `get_top_tracks` results (lines 105-113). -/
def formatTopTracks (ts : List Track) : List FormattedTrack :=
  formatTopAux 0 ts

/-- The formatting loop of `get_liked_songs`
(`for i, item in enumerate(all_liked_songs)`): entries whose `track` is
null produce no record, but the enumeration counter `i` advances over
them all the same. -/
def formatLikedAux (i : Nat) : List SavedItem → List LikedRecord
  | [] => []
  | item :: rest =>
    match item.track with
    | none => formatLikedAux (i + 1) rest
    | some t =>
      { index := i + 1, name := t.name, artists := joinArtists t.artists,
        id := t.id, added_at := item.added_at } :: formatLikedAux (i + 1) rest

/-- Formatting of `get_liked_songs` results (lines 149-160). -/
def formatLikedSongs (items : List SavedItem) : List LikedRecord :=
  formatLikedAux 0 items

/-- Embeds `SpotifyManager.get_top_tracks` (lines 65-116): paginate with the
caller-supplied per-request `limit`, then format.  Returns the formatted
records and the number of page requests issued. -/
def get_top_tracks (provider : Nat → Option (List Track)) (limit fuel : Nat) :
    List FormattedTrack × Nat :=
  let r := paginateLoop provider limit fuel 0
  (formatTopTracks r.1, r.2)

/-- Embeds `SpotifyManager.get_liked_songs` (lines 118-163): paginate with the
fixed page size 50, then format.  Returns the formatted records and the
number of page requests issued. -/
def get_liked_songs (provider : Nat → Option (List SavedItem)) (fuel : Nat) :
    List LikedRecord × Nat :=
  let r := paginateLoop provider 50 fuel 0
  (formatLikedSongs r.1, r.2)

/-- A provider serving pages of the fixed collection `coll`: the request at
`offset` returns items `offset, ..., offset+limit-1` of the collection
(as the real endpoints do for an offset+limit query). -/
def sliceProvider (coll : List α) (limit : Nat) : Nat → Option (List α) :=
  fun offset => some ((coll.drop offset).take limit)

/-- Observable state accumulated by one `_process_in_batches` run: the
success/error counters, the number of error-backoff sleeps
(`time.sleep(self.error_delay)`), the number of inter-batch rate-limit
sleeps (`time.sleep(self.delay)`), and the batches handed to the remote
mutation call, in invocation order. -/
structure BatchState where
  successCount : Nat
  errorCount : Nat
  errorSleeps : Nat
  interSleeps : Nat
  calls : List (List String)
  deriving Repr, DecidableEq

/-- The all-zero state a `_process_in_batches` run starts from. -/
def initBatchState : BatchState :=
  { successCount := 0, errorCount := 0, errorSleeps := 0, interSleeps := 0,
    calls := [] }

/-- One iteration of the `_process_in_batches` loop body (lines 186-203) at
loop index `i` over `total` ids: the remote call receives `batch`
(`track_ids[i:i+bs]`); `fails` decides on the 1-based batch number
(`batch_num = i // batch_size + 1`) whether it raises.  On success the
counters grow by the batch length and, unless this was the final batch
(`i + batch_size < len(track_ids)`), one rate-limit sleep happens; on
failure the error counter grows by the batch length and one backoff sleep
happens. -/
def batchStep (bs total : Nat) (fails : Nat → Bool) (i : Nat)
    (batch : List String) (st : BatchState) : BatchState :=
  if fails (i / bs + 1) then
    { st with errorCount := st.errorCount + batch.length,
              errorSleeps := st.errorSleeps + 1,
              calls := st.calls ++ [batch] }
  else
    { st with successCount := st.successCount + batch.length,
              interSleeps :=
                st.interSleeps + (if i + bs < total then 1 else 0),
              calls := st.calls ++ [batch] }

/-- The `for i in range(0, len(track_ids), self.batch_size)` loop of
`_process_in_batches`, recursing on fuel (any fuel of at least the number
of ids suffices for a positive batch size): `rest` is `track_ids[i:]`. -/
def runBatches (bs total : Nat) (fails : Nat → Bool) :
    Nat → Nat → List String → BatchState → BatchState
  | 0, _, _, st => st
  | fuel + 1, i, rest, st =>
    if rest.isEmpty then st
    else
      runBatches bs total fails fuel (i + bs) (rest.drop bs)
        (batchStep bs total fails i (rest.take bs) st)

/-- Embeds `SpotifyManager._process_in_batches` (lines 165-206): empty input is an
immediate success with no remote call; otherwise run the batch loop and
succeed iff `error_count == 0`.  Returns the accumulated observable state
and the boolean result. -/
def process_in_batches (bs : Nat) (fails : Nat → Bool) (ids : List String) :
    BatchState × Bool :=
  if ids.isEmpty then (initBatchState, true)
  else
    let st := runBatches bs ids.length fails ids.length 0 ids initBatchState
    (st, st.errorCount == 0)

/-- Embeds `SpotifyManager.clear_liked_songs` (lines 208-227) on its default
`track_ids=None` path: fetch the current liked songs, project their ids,
and remove them via `_process_in_batches`. -/
def clear_liked_songs (bs : Nat) (removeFails : Nat → Bool)
    (likedProvider : Nat → Option (List SavedItem)) (fuelL : Nat) :
    BatchState × Bool :=
  process_in_batches bs removeFails
    (((get_liked_songs likedProvider fuelL).1).map (fun r => r.id))

/-- Embeds `SpotifyManager.add_liked_songs` (lines 229-243): add the given ids via
`_process_in_batches`. -/
def add_liked_songs (bs : Nat) (addFails : Nat → Bool) (ids : List String) :
    BatchState × Bool :=
  process_in_batches bs addFails ids

/-- The phases of `replace_liked_with_top`, in the order the source can
reach them. -/
inductive Phase
  | fetchTarget
  | reportPlan
  | clearDest
  | populateDest
  deriving Repr, DecidableEq

/-- Observable outcome of one `replace_liked_with_top` run: the returned
boolean, the phases executed in order, the dry-run report (target set
size and the first-10 preview, when printed), the id lists handed to
`_process_in_batches` for removal and for addition, and the remote
mutation batches actually issued by each. -/
structure WorkflowResult where
  success : Bool
  phases : List Phase
  dryRunReport : Option (Nat × List FormattedTrack)
  removeRuns : List (List String)
  addRuns : List (List String)
  removeCalls : List (List String)
  addCalls : List (List String)
  deriving Repr, DecidableEq

/-- Embeds `SpotifyManager.replace_liked_with_top` (lines 245-293): fetch the top
tracks; fail if none; in dry-run mode report the plan (count and first 10
entries) and succeed with no mutation; otherwise clear the current liked
songs (fetch them, then batched remove) and, only if that fully
succeeded, add the target ids (batched add), returning the add result. -/
def replace_liked_with_top (bs limit : Nat)
    (topProvider : Nat → Option (List Track)) (fuelT : Nat)
    (likedProvider : Nat → Option (List SavedItem)) (fuelL : Nat)
    (removeFails addFails : Nat → Bool) (dry_run : Bool) : WorkflowResult :=
  let top := (get_top_tracks topProvider limit fuelT).1
  let top_track_ids := top.map (fun r => r.id)
  if top_track_ids.isEmpty then
    { success := false, phases := [Phase.fetchTarget], dryRunReport := none,
      removeRuns := [], addRuns := [], removeCalls := [], addCalls := [] }
  else if dry_run then
    { success := true, phases := [Phase.fetchTarget, Phase.reportPlan],
      dryRunReport := some (top_track_ids.length, top.take 10),
      removeRuns := [], addRuns := [], removeCalls := [], addCalls := [] }
  else
    let liked_ids :=
      ((get_liked_songs likedProvider fuelL).1).map (fun r => r.id)
    let rem := process_in_batches bs removeFails liked_ids
    if rem.2 = false then
      { success := false, phases := [Phase.fetchTarget, Phase.clearDest],
        dryRunReport := none, removeRuns := [liked_ids], addRuns := [],
        removeCalls := rem.1.calls, addCalls := [] }
    else
      let addr := process_in_batches bs addFails top_track_ids
      { success := addr.2,
        phases := [Phase.fetchTarget, Phase.clearDest, Phase.populateDest],
        dryRunReport := none, removeRuns := [liked_ids],
        addRuns := [top_track_ids], removeCalls := rem.1.calls,
        addCalls := addr.1.calls }

/-- The token payload `sp_oauth.get_access_token(code)` yields; a datetime
is identified with its Unix timestamp. -/
structure TokenInfo where
  access_token : String
  refresh_token : String
  expires_at : Int
  deriving Repr, DecidableEq

/-- The provider profile dict `sp.current_user()` yields, restricted to the
fields the backend reads (`.get` accesses become `Option`). -/
structure SpotifyProfile where
  id : String
  display_name : Option String
  email : Option String
  country : Option String
  followers_total : Nat
  images : List String
  deriving Repr, DecidableEq

/-- The runtime errors the backend service functions can raise. -/
inductive PyRuntimeError
  | attribute_error
  | name_error
  | type_error
  deriving Repr, DecidableEq

/-- A `users` table row with exactly the columns the `User` model of
`src/backend/database.py` (lines 10-19) defines; `created_at` carries the
`func.now()` insertion default. -/
structure UserRecord where
  spotify_id : String
  display_name : String
  follower_count : Nat
  profile_image_url : String
  access_token : String
  refresh_token : String
  token_expires_at : Int
  created_at : Int
  deriving Repr, DecidableEq

/-- Modelled from the spec: the `Session` model is imported from `database`
in `auth_service.py` but `src/backend/database.py` defines no such class.
Spec section 3 gives `Session = {id, userId, expiresAt}`; the field names
follow the creation site `SessionModel(id=..., user_spotify_id=...,
expires_at=...)` in `handle_spotify_callback`. -/
structure SessionRecord where
  id : String
  user_spotify_id : String
  expires_at : Int
  deriving Repr, DecidableEq

/-- The relational store: `users` and `sessions` tables. -/
structure Db where
  users : List UserRecord
  sessions : List SessionRecord
  deriving Repr, DecidableEq

/-- Embeds `database_service.update_or_create_user` (lines 4-28): if a row
with the caller's provider id exists, refresh only its three credential
columns (the ORM mutates the matched row in place) and return the
resulting row with the new table.  When no row matches, the source
builds `User(spotify_id=..., display_name=..., email=..., country=...,
...)`; the `User` model of `database.py` defines no `email` or `country`
column, so the declarative constructor raises `TypeError` before any row
is added — embedded as the `type_error` outcome, leaving the table
untouched. -/
def update_or_create_user (db : List UserRecord) (user : SpotifyProfile)
    (token_info : TokenInfo) :
    Except PyRuntimeError (UserRecord × List UserRecord) :=
  match db.find? (fun u => u.spotify_id == user.id) with
  | some existing_user =>
    let updated :=
      { existing_user with
        access_token := token_info.access_token,
        refresh_token := token_info.refresh_token,
        token_expires_at := token_info.expires_at }
    Except.ok
      (updated,
       db.map (fun u => if u.spotify_id == user.id then updated else u))
  | none => Except.error PyRuntimeError.type_error

/-- The structured result `handle_spotify_callback` returns to the route
layer.  A `raised := some e` outcome records that the call raised the
runtime error `e` instead of returning a payload (every other field is
then meaningless); the accompanying state components still carry the
mutations performed before the raise. -/
structure CallbackResult where
  success : Bool
  error : Option String
  session_id : Option String
  user : Option SpotifyProfile
  raised : Option PyRuntimeError
  deriving Repr, DecidableEq

/-- Embeds `auth_service.handle_spotify_callback` (lines 44-74).  The module-level
dict `pending_states` is passed in as the set of currently pending state
tokens and returned updated; the provider's token endpoint is the
parameter `getToken` (`none` = no usable token), the profile endpoint is
`currentUser` (`none` = no user), the fresh `secrets.token_urlsafe(32)`
value is `newSessionId`, and `datetime.now()` is `now` (7 days = 604800
seconds).  Python's `if not state` treats both an absent and an empty
state as missing.  The state token is deleted from `pending_states`
before the token exchange is attempted.  When the
`update_or_create_user` call raises (first-ever login, see that
definition), the exception propagates out of the source function — no
payload is returned and no session is inserted, but the state deletion
has already happened; this is the `raised := some e` outcome. -/
def handle_spotify_callback (getToken : String → Option TokenInfo)
    (currentUser : Option SpotifyProfile) (newSessionId : String) (now : Int)
    (pending_states : Finset String) (db : Db) (code : String)
    (state : Option String) : CallbackResult × Finset String × Db :=
  match state with
  | none =>
    ({ success := false, error := some "missing_state", session_id := none,
       user := none, raised := none }, pending_states, db)
  | some s =>
    if s = "" then
      ({ success := false, error := some "missing_state", session_id := none,
         user := none, raised := none }, pending_states, db)
    else if s ∉ pending_states then
      ({ success := false, error := some "invalid_state", session_id := none,
         user := none, raised := none }, pending_states, db)
    else
      let pending2 := pending_states.erase s
      match getToken code with
      | none =>
        ({ success := false, error := some "token_error", session_id := none,
           user := none, raised := none }, pending2, db)
      | some token_info =>
        match currentUser with
        | none =>
          ({ success := false, error := some "user_error", session_id := none,
             user := none, raised := none }, pending2, db)
        | some user =>
          match update_or_create_user db.users user token_info with
          | Except.error e =>
            ({ success := false, error := none, session_id := none,
               user := none, raised := some e }, pending2, db)
          | Except.ok r =>
            let new_session : SessionRecord :=
              { id := newSessionId, user_spotify_id := r.1.spotify_id,
                expires_at := now + 604800 }
            ({ success := true, error := none,
               session_id := some newSessionId, user := some user,
               raised := none },
             pending2,
             { users := r.2, sessions := db.sessions ++ [new_session] })

/-- Embeds `auth_service.get_current_user` (lines 21-35).  An absent or empty
`session_id`, or an id with no stored session, returns `None`.  When a
session IS found, the source evaluates `session.expired_at < func.now()`;
session rows are written with `expires_at` (there is no `expired_at`
attribute), so this access raises — embedded as `attribute_error`.  (The
code past that point is also unreachable-correct: it filters on
`user.spotify_id` with `user` still unbound, a `NameError`; and the
enclosing import `from database import Session` itself fails, since
`database.py` defines no `Session`.) -/
def get_current_user (db : Db) (session_id : Option String) :
    Except PyRuntimeError (Option UserRecord) :=
  match session_id with
  | none => Except.ok none
  | some sid =>
    if sid = "" then Except.ok none
    else
      match db.sessions.find? (fun s => s.id == sid) with
      | none => Except.ok none
      | some _ => Except.error PyRuntimeError.attribute_error

/-- The per-batch failure oracle of claim C1: the remote mutation raises on
exactly the second batch. -/
def failsSecond : Nat → Bool := fun n => n == 2

/-- Witness fixture: the `n`-th synthetic track. -/
def wTrackN (n : Nat) : Track :=
  { name := toString n, artists := ["a"], id := toString n, popularity := some 1 }

/-- Witness fixture: `n` synthetic tracks. -/
def wTracks (n : Nat) : List Track :=
  (List.range n).map wTrackN

/-- Witness fixture: `n` synthetic saved-track entries, all with a live
track reference. -/
def wSaved (n : Nat) : List SavedItem :=
  (List.range n).map (fun k => { track := some (wTrackN k), added_at := "d" })

/-- Witness fixture: a tombstoned saved-track entry (null track). -/
def wNullItem : SavedItem :=
  { track := none, added_at := "d" }

/-- Witness fixture for C2: a single liked-songs page holding one null
entry followed by 10 valid ones. -/
def wC2Items : List SavedItem :=
  wNullItem :: wSaved 10

/-- Witness fixture for C3: a provider answering the offsets 0, 50, 100
with full pages of 50 and the offset 150 with a short page of 30. -/
def wTopProviderC3 : Nat → Option (List Track) :=
  fun offset => if offset = 150 then some (wTracks 30) else some (wTracks 50)

/-- Witness fixture: a provider whose first page already holds all `n`
tracks (short page, single request). -/
def wTopProviderSmall (n : Nat) : Nat → Option (List Track) :=
  fun _ => some (wTracks n)

/-- Witness fixture: a provider whose first liked-songs page already holds
all `n` entries. -/
def wLikedProviderSmall (n : Nat) : Nat → Option (List SavedItem) :=
  fun _ => some (wSaved n)

/-- Witness fixture: a token payload. -/
def wToken : TokenInfo :=
  { access_token := "at", refresh_token := "rt", expires_at := 100 }

/-- Witness fixture: the provider profile of user `u1`. -/
def wProfile : SpotifyProfile :=
  { id := "u1", display_name := some "U", email := none, country := none,
    followers_total := 3, images := ["img"] }

/-- Witness fixture: a stored `users` row for `u1` with stale
credentials. -/
def wUser : UserRecord :=
  { spotify_id := "u1", display_name := "Old Name", follower_count := 3,
    profile_image_url := "img", access_token := "stale-at",
    refresh_token := "stale-rt", token_expires_at := 5, created_at := 1 }

/-- Witness fixture: a stored `users` row for a different user `u2`. -/
def wOther : UserRecord :=
  { spotify_id := "u2", display_name := "Other", follower_count := 9,
    profile_image_url := "img2", access_token := "at2",
    refresh_token := "rt2", token_expires_at := 6, created_at := 2 }

/-- Witness fixture: the row `wUser` after a credential refresh with
`wToken`. -/
def wUpdated : UserRecord :=
  { spotify_id := "u1", display_name := "Old Name", follower_count := 3,
    profile_image_url := "img", access_token := "at",
    refresh_token := "rt", token_expires_at := 100, created_at := 1 }

/-- Witness fixture: a store holding only user `u1`. -/
def wDb : Db :=
  { users := [wUser], sessions := [] }

/-- Witness fixture: a session row for `u1` with a far-future expiry. -/
def wSession : SessionRecord :=
  { id := "s1", user_spotify_id := "u1", expires_at := 9999 }

/-- Witness fixture: a store holding user `u1` and session `s1`. -/
def wDbWithSession : Db :=
  { users := [wUser], sessions := [wSession] }

theorem isEmpty_false_of_length_ne_zero {α : Type _} {l : List α}
    (h : l.length ≠ 0) : l.isEmpty = false := by
  cases l with
  | nil => simp at h
  | cons a t => rfl

theorem formatTopAux_length (i : Nat) (ts : List Track) :
    (formatTopAux i ts).length = ts.length := by
  induction ts generalizing i with
  | nil => rfl
  | cons t ts ih => simp [formatTopAux, ih]

theorem formatTopAux_map_index (i : Nat) (ts : List Track) :
    (formatTopAux i ts).map (fun r => r.index) =
      List.range' (i + 1) ts.length := by
  induction ts generalizing i with
  | nil => rfl
  | cons t ts ih =>
    simp only [formatTopAux, List.map_cons, List.length_cons,
      List.range'_succ, ih]

theorem paginateLoop_full {α : Type _} (provider : Nat → Option (List α))
    (limit fuel offset : Nat) (page : List α)
    (hoff : provider offset = some page) (hlen : page.length = limit) :
    paginateLoop provider limit (fuel + 1) offset =
      (page ++ (paginateLoop provider limit fuel (offset + limit)).1,
       (paginateLoop provider limit fuel (offset + limit)).2 + 1) := by
  simp only [paginateLoop, hoff]
  rw [if_neg (by omega)]

theorem paginateLoop_short {α : Type _} (provider : Nat → Option (List α))
    (limit fuel offset : Nat) (page : List α)
    (hoff : provider offset = some page) (hlen : page.length < limit) :
    paginateLoop provider limit (fuel + 1) offset = (page, 1) := by
  simp only [paginateLoop, hoff]
  rw [if_pos hlen]

/-- C3: for a provider that returns pages of sizes [50,50,50,30] at the
ascending offsets 0, 50, 100, 150, the top-tracks fetch issues exactly 4
page requests, terminates after the short page, and returns exactly 180
items — the four pages concatenated in provider order — carrying the
index values 1..180. -/
theorem claim_C3 (provider : Nat → Option (List Track))
    (p0 p1 p2 p3 : List Track) (fuel : Nat)
    (h0 : provider 0 = some p0) (l0 : p0.length = 50)
    (h1 : provider 50 = some p1) (l1 : p1.length = 50)
    (h2 : provider 100 = some p2) (l2 : p2.length = 50)
    (h3 : provider 150 = some p3) (l3 : p3.length = 30)
    (hf : 4 ≤ fuel) :
    (get_top_tracks provider 50 fuel).2 = 4 ∧
    (get_top_tracks provider 50 fuel).1 =
      formatTopTracks (p0 ++ (p1 ++ (p2 ++ p3))) ∧
    (get_top_tracks provider 50 fuel).1.length = 180 ∧
    (get_top_tracks provider 50 fuel).1.map (fun r => r.index) =
      List.range' 1 180 := by
  obtain ⟨n, rfl⟩ : ∃ n, fuel = n + 4 := ⟨fuel - 4, by omega⟩
  have hp : paginateLoop provider 50 (n + 4) 0 =
      (p0 ++ (p1 ++ (p2 ++ p3)), 4) := by
    have e0 := paginateLoop_full provider 50 (n + 3) 0 p0 h0 l0
    have e1 := paginateLoop_full provider 50 (n + 2) 50 p1 h1 l1
    have e2 := paginateLoop_full provider 50 (n + 1) 100 p2 h2 l2
    have e3 := paginateLoop_short provider 50 n 150 p3 h3 (by omega)
    rw [show (0 : Nat) + 50 = 50 from rfl] at e0
    rw [show (50 : Nat) + 50 = 100 from rfl] at e1
    rw [show (100 : Nat) + 50 = 150 from rfl] at e2
    rw [e3] at e2
    rw [e2] at e1
    rw [e1] at e0
    exact e0
  have hlen : (p0 ++ (p1 ++ (p2 ++ p3))).length = 180 := by
    simp [l0, l1, l2, l3]
  have hitems : (get_top_tracks provider 50 (n + 4)).1 =
      formatTopTracks (p0 ++ (p1 ++ (p2 ++ p3))) := by
    simp [get_top_tracks, hp]
  refine ⟨?_, hitems, ?_, ?_⟩
  · simp [get_top_tracks, hp]
  · rw [hitems]
    simp only [formatTopTracks]
    rw [formatTopAux_length]
    exact hlen
  · rw [hitems]
    simp only [formatTopTracks]
    rw [formatTopAux_map_index, hlen]

/-- Witness for C3 at a concrete provider. -/
theorem claim_C3_witness :
    (get_top_tracks wTopProviderC3 50 4).2 = 4 ∧
    (get_top_tracks wTopProviderC3 50 4).1 =
      formatTopTracks (wTracks 50 ++ (wTracks 50 ++ (wTracks 50 ++ wTracks 30))) ∧
    (get_top_tracks wTopProviderC3 50 4).1.length = 180 ∧
    (get_top_tracks wTopProviderC3 50 4).1.map (fun r => r.index) =
      List.range' 1 180 :=
  claim_C3 wTopProviderC3 (wTracks 50) (wTracks 50) (wTracks 50) (wTracks 30) 4
    rfl (by simp [wTracks]) rfl (by simp [wTracks]) rfl (by simp [wTracks])
    rfl (by simp [wTracks]) (by omega)

theorem sliceProvider_paginate {α : Type _} (limit : Nat) (hl : 1 ≤ limit)
    (k : Nat) :
    ∀ (fuel offset : Nat) (coll : List α), k + 1 ≤ fuel →
      (coll.drop offset).length = k * limit →
      paginateLoop (sliceProvider coll limit) limit fuel offset =
        (coll.drop offset, k + 1) := by
  induction k with
  | zero =>
    intro fuel offset coll hf hlen
    obtain ⟨m, rfl⟩ : ∃ m, fuel = m + 1 := ⟨fuel - 1, by omega⟩
    have hnil : coll.drop offset = [] :=
      List.eq_nil_of_length_eq_zero (by simpa using hlen)
    have := paginateLoop_short (sliceProvider coll limit) limit m offset []
      (by simp [sliceProvider, hnil]) (by simpa using hl)
    simpa [hnil] using this
  | succ k ih =>
    intro fuel offset coll hf hlen
    obtain ⟨m, rfl⟩ : ∃ m, fuel = m + 1 := ⟨fuel - 1, by omega⟩
    have hlim : limit ≤ (k + 1) * limit := Nat.le_mul_of_pos_left limit (by omega)
    have hplen : ((coll.drop offset).take limit).length = limit := by
      rw [List.length_take, hlen]
      omega
    have hrest : (coll.drop (offset + limit)).length = k * limit := by
      have hdd : coll.drop (offset + limit) = (coll.drop offset).drop limit := by
        rw [List.drop_drop]
      have : k * limit + limit = (k + 1) * limit := by ring
      rw [hdd, List.length_drop, hlen]
      omega
    have hrec := ih m (offset + limit) coll (by omega) hrest
    have hstep := paginateLoop_full (sliceProvider coll limit) limit m offset
      ((coll.drop offset).take limit) rfl hplen
    rw [hrec] at hstep
    have hglue : (coll.drop offset).take limit ++ coll.drop (offset + limit) =
        coll.drop offset := by
      have hdd : coll.drop (offset + limit) = (coll.drop offset).drop limit := by
        rw [List.drop_drop]
      rw [hdd, List.take_append_drop]
    rw [hglue] at hstep
    exact hstep

/-- C10: when the collection size is a positive exact multiple `k * limit`
of the page size, the pagination loop issues `k + 1` requests — one
beyond the last full page — the extra request (at offset `k * limit`)
returns the empty page, the loop terminates, and the items returned are
exactly the collection, once each, in order. -/
theorem claim_C10 {α : Type _} (coll : List α) (limit k fuel : Nat)
    (hl : 1 ≤ limit) (hk : 1 ≤ k) (hlen : coll.length = k * limit)
    (hf : k + 1 ≤ fuel) :
    paginateLoop (sliceProvider coll limit) limit fuel 0 = (coll, k + 1) ∧
    sliceProvider coll limit (k * limit) = some [] := by
  constructor
  · have := sliceProvider_paginate limit hl k fuel 0 coll hf (by simpa using hlen)
    simpa using this
  · have hnil : coll.drop (k * limit) = [] :=
      List.drop_eq_nil_of_le (by omega)
    simp [sliceProvider, hnil]

/-- Witness for C10: pages [50,50] mean 3 requests and the 100 items back
in order. -/
theorem claim_C10_witness :
    paginateLoop (sliceProvider (List.range 100) 50) 50 3 0 =
      (List.range 100, 3) ∧
    sliceProvider (List.range 100) 50 (2 * 50) = some [] :=
  claim_C10 (List.range 100) 50 2 3 (by omega) (by omega) (by simp) (by omega)

theorem runBatches_nil (bs total : Nat) (fails : Nat → Bool) (fuel i : Nat)
    (st : BatchState) : runBatches bs total fails fuel i [] st = st := by
  cases fuel <;> simp [runBatches]

theorem runBatches_succ (bs total : Nat) (fails : Nat → Bool) (fuel i : Nat)
    (rest : List String) (st : BatchState) (h : rest.isEmpty = false) :
    runBatches bs total fails (fuel + 1) i rest st =
      runBatches bs total fails fuel (i + bs) (rest.drop bs)
        (batchStep bs total fails i (rest.take bs) st) := by
  simp [runBatches, h]

/-- C1: a batched-mutator run over 45 identifiers with batch size 20 and a
remote mutation failing on exactly the second batch processes all three
contiguous batches in order without aborting, ends with
`successCount = 25` and `errorCount = 20`, reports overall success
`false`, and invokes the error backoff delay exactly once. -/
theorem claim_C1 (ids : List String) (h : ids.length = 45) :
    (process_in_batches 20 failsSecond ids).1.calls =
      [ids.take 20, (ids.drop 20).take 20, ids.drop 40] ∧
    (process_in_batches 20 failsSecond ids).1.successCount = 25 ∧
    (process_in_batches 20 failsSecond ids).1.errorCount = 20 ∧
    (process_in_batches 20 failsSecond ids).2 = false ∧
    (process_in_batches 20 failsSecond ids).1.errorSleeps = 1 := by
  have ld20 : (ids.drop 20).length = 25 := by simp [h]
  have ld40 : (ids.drop 40).length = 5 := by simp [h]
  have hne1 : ids.isEmpty = false :=
    isEmpty_false_of_length_ne_zero (by omega)
  have hne2 : (ids.drop 20).isEmpty = false :=
    isEmpty_false_of_length_ne_zero (by omega)
  have hne3 : (ids.drop 40).isEmpty = false :=
    isEmpty_false_of_length_ne_zero (by omega)
  have lt1 : (ids.take 20).length = 20 := by
    rw [List.length_take, h]
    omega
  have lt2 : ((ids.drop 20).take 20).length = 20 := by
    rw [List.length_take, ld20]
    omega
  have lt3 : (ids.drop 40).take 20 = ids.drop 40 :=
    List.take_of_length_le (by omega)
  have dd1 : (ids.drop 20).drop 20 = ids.drop 40 := by
    rw [List.drop_drop]
  have dd2 : (ids.drop 40).drop 20 = [] :=
    List.drop_eq_nil_of_le (by omega)
  have s1 := runBatches_succ 20 45 failsSecond 44 0 ids initBatchState hne1
  have s2 := runBatches_succ 20 45 failsSecond 43 20 (ids.drop 20)
    (batchStep 20 45 failsSecond 0 (ids.take 20) initBatchState) hne2
  have s3 := runBatches_succ 20 45 failsSecond 42 40 (ids.drop 40)
    (batchStep 20 45 failsSecond 20 ((ids.drop 20).take 20)
      (batchStep 20 45 failsSecond 0 (ids.take 20) initBatchState)) hne3
  rw [dd1] at s2
  rw [dd2, lt3] at s3
  have send := runBatches_nil 20 45 failsSecond 41 60
    (batchStep 20 45 failsSecond 40 (ids.drop 40)
      (batchStep 20 45 failsSecond 20 ((ids.drop 20).take 20)
        (batchStep 20 45 failsSecond 0 (ids.take 20) initBatchState)))
  have main : runBatches 20 45 failsSecond 45 0 ids initBatchState =
      batchStep 20 45 failsSecond 40 (ids.drop 40)
        (batchStep 20 45 failsSecond 20 ((ids.drop 20).take 20)
          (batchStep 20 45 failsSecond 0 (ids.take 20) initBatchState)) :=
    s1.trans (s2.trans (s3.trans send))
  have hproc : process_in_batches 20 failsSecond ids =
      (runBatches 20 45 failsSecond 45 0 ids initBatchState,
       (runBatches 20 45 failsSecond 45 0 ids initBatchState).errorCount == 0) := by
    rw [process_in_batches, if_neg (by simp [hne1]), h]
  rw [hproc, main]
  simp [batchStep, failsSecond, initBatchState, lt1, lt2, ld40]

/-- Witness for C1 at a concrete 45-element id list. -/
theorem claim_C1_witness :
    (process_in_batches 20 failsSecond (List.replicate 45 "x")).1.calls =
      [(List.replicate 45 "x").take 20,
       ((List.replicate 45 "x").drop 20).take 20,
       (List.replicate 45 "x").drop 40] ∧
    (process_in_batches 20 failsSecond (List.replicate 45 "x")).1.successCount = 25 ∧
    (process_in_batches 20 failsSecond (List.replicate 45 "x")).1.errorCount = 20 ∧
    (process_in_batches 20 failsSecond (List.replicate 45 "x")).2 = false ∧
    (process_in_batches 20 failsSecond (List.replicate 45 "x")).1.errorSleeps = 1 :=
  claim_C1 (List.replicate 45 "x") (by simp)

/-- C4: a Replace Workflow run with `dry_run = true` and a non-empty
fetched target set returns success, reports the target set size together
with the first-10 preview, and never invokes the batched mutator — no
`_process_in_batches` run and no remote mutation batch for either the
remove or the add operation, so the remote collection is untouched. -/
theorem claim_C4 (bs limit : Nat) (topProvider : Nat → Option (List Track))
    (fuelT : Nat) (likedProvider : Nat → Option (List SavedItem))
    (fuelL : Nat) (removeFails addFails : Nat → Bool)
    (hne : (get_top_tracks topProvider limit fuelT).1 ≠ []) :
    replace_liked_with_top bs limit topProvider fuelT likedProvider fuelL
      removeFails addFails true =
      { success := true, phases := [Phase.fetchTarget, Phase.reportPlan],
        dryRunReport := some
          (((get_top_tracks topProvider limit fuelT).1.map
              (fun r => r.id)).length,
           (get_top_tracks topProvider limit fuelT).1.take 10),
        removeRuns := [], addRuns := [], removeCalls := [],
        addCalls := [] } := by
  have hlen : (get_top_tracks topProvider limit fuelT).1.length ≠ 0 := by
    intro e
    exact hne (List.eq_nil_of_length_eq_zero e)
  have hmap : ((get_top_tracks topProvider limit fuelT).1.map
      (fun r => r.id)).isEmpty = false :=
    isEmpty_false_of_length_ne_zero (by simpa using hlen)
  simp [replace_liked_with_top, hmap]

/-- Witness for C4 at a concrete 5-track target set. -/
theorem claim_C4_witness :
    replace_liked_with_top 20 50 (wTopProviderSmall 5) 1
      (wLikedProviderSmall 0) 1 (fun _ => false) (fun _ => false) true =
      { success := true, phases := [Phase.fetchTarget, Phase.reportPlan],
        dryRunReport := some
          (((get_top_tracks (wTopProviderSmall 5) 50 1).1.map
              (fun r => r.id)).length,
           (get_top_tracks (wTopProviderSmall 5) 50 1).1.take 10),
        removeRuns := [], addRuns := [], removeCalls := [],
        addCalls := [] } :=
  claim_C4 20 50 (wTopProviderSmall 5) 1 (wLikedProviderSmall 0) 1
    (fun _ => false) (fun _ => false) (by decide)

/-- C5: with `dry_run = false` the Replace Workflow executes its phases
strictly in the order fetch-target, clear-destination,
populate-destination, and a failure short-circuits: an empty target set
returns failure with no mutation attempted; a failed clear returns
failure with the populate phase never reached; when the clear fully
succeeds the populate phase runs and its result is the workflow
result. -/
theorem claim_C5 (bs limit : Nat) (topProvider : Nat → Option (List Track))
    (fuelT : Nat) (likedProvider : Nat → Option (List SavedItem))
    (fuelL : Nat) (removeFails addFails : Nat → Bool) :
    ((get_top_tracks topProvider limit fuelT).1 = [] →
      replace_liked_with_top bs limit topProvider fuelT likedProvider fuelL
        removeFails addFails false =
        { success := false, phases := [Phase.fetchTarget],
          dryRunReport := none, removeRuns := [], addRuns := [],
          removeCalls := [], addCalls := [] }) ∧
    ((get_top_tracks topProvider limit fuelT).1 ≠ [] →
      (process_in_batches bs removeFails
        (((get_liked_songs likedProvider fuelL).1).map (fun r => r.id))).2 =
          false →
      replace_liked_with_top bs limit topProvider fuelT likedProvider fuelL
        removeFails addFails false =
        { success := false, phases := [Phase.fetchTarget, Phase.clearDest],
          dryRunReport := none,
          removeRuns :=
            [((get_liked_songs likedProvider fuelL).1).map (fun r => r.id)],
          addRuns := [],
          removeCalls := (process_in_batches bs removeFails
            (((get_liked_songs likedProvider fuelL).1).map
              (fun r => r.id))).1.calls,
          addCalls := [] }) ∧
    ((get_top_tracks topProvider limit fuelT).1 ≠ [] →
      (process_in_batches bs removeFails
        (((get_liked_songs likedProvider fuelL).1).map (fun r => r.id))).2 =
          true →
      replace_liked_with_top bs limit topProvider fuelT likedProvider fuelL
        removeFails addFails false =
        { success := (process_in_batches bs addFails
            ((get_top_tracks topProvider limit fuelT).1.map
              (fun r => r.id))).2,
          phases := [Phase.fetchTarget, Phase.clearDest, Phase.populateDest],
          dryRunReport := none,
          removeRuns :=
            [((get_liked_songs likedProvider fuelL).1).map (fun r => r.id)],
          addRuns :=
            [(get_top_tracks topProvider limit fuelT).1.map (fun r => r.id)],
          removeCalls := (process_in_batches bs removeFails
            (((get_liked_songs likedProvider fuelL).1).map
              (fun r => r.id))).1.calls,
          addCalls := (process_in_batches bs addFails
            ((get_top_tracks topProvider limit fuelT).1.map
              (fun r => r.id))).1.calls }) := by
  refine ⟨?_, ?_, ?_⟩
  · intro h0
    simp [replace_liked_with_top, h0]
  · intro hne hrem
    have hmap : ((get_top_tracks topProvider limit fuelT).1.map
        (fun r => r.id)).isEmpty = false :=
      isEmpty_false_of_length_ne_zero
        (by simpa [List.length_eq_zero] using hne)
    simp [replace_liked_with_top, hmap, hrem]
  · intro hne hrem
    have hmap : ((get_top_tracks topProvider limit fuelT).1.map
        (fun r => r.id)).isEmpty = false :=
      isEmpty_false_of_length_ne_zero
        (by simpa [List.length_eq_zero] using hne)
    simp [replace_liked_with_top, hmap, hrem]

/-- Witness for C5: the three phase scenarios at concrete inputs — empty
target set; failing clear; fully succeeding clear. -/
theorem claim_C5_witness :
    (replace_liked_with_top 20 50 (fun _ => some []) 1
      (wLikedProviderSmall 0) 1 (fun _ => false) (fun _ => false) false =
      { success := false, phases := [Phase.fetchTarget],
        dryRunReport := none, removeRuns := [], addRuns := [],
        removeCalls := [], addCalls := [] }) ∧
    (replace_liked_with_top 20 50 (wTopProviderSmall 2) 1
      (wLikedProviderSmall 3) 1 (fun _ => true) (fun _ => false) false =
      { success := false, phases := [Phase.fetchTarget, Phase.clearDest],
        dryRunReport := none,
        removeRuns :=
          [((get_liked_songs (wLikedProviderSmall 3) 1).1).map
            (fun r => r.id)],
        addRuns := [],
        removeCalls := (process_in_batches 20 (fun _ => true)
          (((get_liked_songs (wLikedProviderSmall 3) 1).1).map
            (fun r => r.id))).1.calls,
        addCalls := [] }) ∧
    (replace_liked_with_top 20 50 (wTopProviderSmall 2) 1
      (wLikedProviderSmall 3) 1 (fun _ => false) (fun _ => false) false =
      { success := (process_in_batches 20 (fun _ => false)
          ((get_top_tracks (wTopProviderSmall 2) 50 1).1.map
            (fun r => r.id))).2,
        phases := [Phase.fetchTarget, Phase.clearDest, Phase.populateDest],
        dryRunReport := none,
        removeRuns :=
          [((get_liked_songs (wLikedProviderSmall 3) 1).1).map
            (fun r => r.id)],
        addRuns :=
          [(get_top_tracks (wTopProviderSmall 2) 50 1).1.map
            (fun r => r.id)],
        removeCalls := (process_in_batches 20 (fun _ => false)
          (((get_liked_songs (wLikedProviderSmall 3) 1).1).map
            (fun r => r.id))).1.calls,
        addCalls := (process_in_batches 20 (fun _ => false)
          ((get_top_tracks (wTopProviderSmall 2) 50 1).1.map
            (fun r => r.id))).1.calls }) :=
  ⟨(claim_C5 20 50 (fun _ => some []) 1 (wLikedProviderSmall 0) 1
      (fun _ => false) (fun _ => false)).1 rfl,
   (claim_C5 20 50 (wTopProviderSmall 2) 1 (wLikedProviderSmall 3) 1
      (fun _ => true) (fun _ => false)).2.1 (by decide) (by decide),
   (claim_C5 20 50 (wTopProviderSmall 2) 1 (wLikedProviderSmall 3) 1
      (fun _ => false) (fun _ => false)).2.2 (by decide) (by decide)⟩

theorem handle_invalid (getToken : String → Option TokenInfo)
    (currentUser : Option SpotifyProfile) (newSessionId : String) (now : Int)
    (pending : Finset String) (db : Db) (code s : String)
    (hse : s ≠ "") (hmem : s ∉ pending) :
    handle_spotify_callback getToken currentUser newSessionId now pending db
      code (some s) =
      ({ success := false, error := some "invalid_state", session_id := none,
         user := none, raised := none }, pending, db) := by
  simp only [handle_spotify_callback]
  rw [if_neg hse, if_pos hmem]

theorem handle_pending_after (getToken : String → Option TokenInfo)
    (currentUser : Option SpotifyProfile) (newSessionId : String) (now : Int)
    (pending : Finset String) (db : Db) (code s : String)
    (hse : s ≠ "") (hmem : s ∈ pending) :
    (handle_spotify_callback getToken currentUser newSessionId now pending db
      code (some s)).2.1 = pending.erase s := by
  simp only [handle_spotify_callback]
  rw [if_neg hse, if_neg (not_not_intro hmem)]
  split
  · rfl
  · split
    · rfl
    · split <;> rfl

theorem handle_token_error (getToken : String → Option TokenInfo)
    (currentUser : Option SpotifyProfile) (newSessionId : String) (now : Int)
    (pending : Finset String) (db : Db) (code s : String)
    (hse : s ≠ "") (hmem : s ∈ pending) (ht : getToken code = none) :
    handle_spotify_callback getToken currentUser newSessionId now pending db
      code (some s) =
      ({ success := false, error := some "token_error", session_id := none,
         user := none, raised := none }, pending.erase s, db) := by
  simp only [handle_spotify_callback]
  rw [if_neg hse, if_neg (not_not_intro hmem), ht]

/-- C6: state tokens are single-use — once a state has been consumed by a
successful `handle_spotify_callback` exchange, it is no longer pending,
and presenting it to any subsequent exchange call fails with the
`invalid_state` error (the spec's `InvalidOrExpiredState`). -/
theorem claim_C6 (getToken : String → Option TokenInfo)
    (currentUser : Option SpotifyProfile) (newSessionId : String) (now : Int)
    (pending : Finset String) (db : Db) (code s : String)
    (getToken2 : String → Option TokenInfo)
    (currentUser2 : Option SpotifyProfile) (newSessionId2 : String)
    (now2 : Int) (code2 : String)
    (hs : (handle_spotify_callback getToken currentUser newSessionId now
      pending db code (some s)).1.success = true) :
    s ∉ (handle_spotify_callback getToken currentUser newSessionId now
      pending db code (some s)).2.1 ∧
    (handle_spotify_callback getToken2 currentUser2 newSessionId2 now2
      (handle_spotify_callback getToken currentUser newSessionId now pending
        db code (some s)).2.1
      (handle_spotify_callback getToken currentUser newSessionId now pending
        db code (some s)).2.2
      code2 (some s)).1.success = false ∧
    (handle_spotify_callback getToken2 currentUser2 newSessionId2 now2
      (handle_spotify_callback getToken currentUser newSessionId now pending
        db code (some s)).2.1
      (handle_spotify_callback getToken currentUser newSessionId now pending
        db code (some s)).2.2
      code2 (some s)).1.error = some "invalid_state" := by
  have hse : s ≠ "" := by
    intro e
    rw [e] at hs
    simp [handle_spotify_callback] at hs
  have hmem : s ∈ pending := by
    by_contra hm
    rw [handle_invalid getToken currentUser newSessionId now pending db code
      s hse hm] at hs
    simp at hs
  have h1 : (handle_spotify_callback getToken currentUser newSessionId now
      pending db code (some s)).2.1 = pending.erase s :=
    handle_pending_after getToken currentUser newSessionId now pending db
      code s hse hmem
  have h2 : s ∉ (handle_spotify_callback getToken currentUser newSessionId
      now pending db code (some s)).2.1 := by
    rw [h1]
    exact Finset.not_mem_erase s pending
  refine ⟨h2, ?_, ?_⟩
  · rw [handle_invalid getToken2 currentUser2 newSessionId2 now2 _ _ code2 s
      hse h2]
  · rw [handle_invalid getToken2 currentUser2 newSessionId2 now2 _ _ code2 s
      hse h2]

/-- Witness for C6 at a concrete successful exchange of state `s1`. -/
theorem claim_C6_witness :
    "s1" ∉ (handle_spotify_callback (fun _ => some wToken) (some wProfile)
      "sess1" 0 {"s1"} wDb "c" (some "s1")).2.1 ∧
    (handle_spotify_callback (fun _ => some wToken) (some wProfile) "sess2" 5
      (handle_spotify_callback (fun _ => some wToken) (some wProfile)
        "sess1" 0 {"s1"} wDb "c" (some "s1")).2.1
      (handle_spotify_callback (fun _ => some wToken) (some wProfile)
        "sess1" 0 {"s1"} wDb "c" (some "s1")).2.2
      "c2" (some "s1")).1.success = false ∧
    (handle_spotify_callback (fun _ => some wToken) (some wProfile) "sess2" 5
      (handle_spotify_callback (fun _ => some wToken) (some wProfile)
        "sess1" 0 {"s1"} wDb "c" (some "s1")).2.1
      (handle_spotify_callback (fun _ => some wToken) (some wProfile)
        "sess1" 0 {"s1"} wDb "c" (some "s1")).2.2
      "c2" (some "s1")).1.error = some "invalid_state" :=
  claim_C6 (fun _ => some wToken) (some wProfile) "sess1" 0 {"s1"} wDb "c"
    "s1" (fun _ => some wToken) (some wProfile) "sess2" 5 "c2" (by decide)

/-- Counterexample to C7 as stated: a `handle_spotify_callback` call whose
state is not pending fails and removes no token at all — the pending
storage is returned unchanged — so not every call removes exactly one
state token. -/
theorem claim_C7_counterexample :
    (handle_spotify_callback (fun _ => some wToken) (some wProfile) "sess1" 0
      {"s1"} wDb "c" (some "s2")).2.1 = ({"s1"} : Finset String) ∧
    (handle_spotify_callback (fun _ => some wToken) (some wProfile) "sess1" 0
      {"s1"} wDb "c" (some "s2")).1.success = false := by
  constructor <;> rfl

/-- C7 (amended): every `handle_spotify_callback` call that passes state
validation — a non-empty state that is currently pending — removes
exactly that one state token from the pending storage, whatever the
token-exchange outcome; the removal precedes the exchange attempt, so
when the exchange fails the call reports failure and a retry with the
same state fails with `invalid_state`. -/
theorem claim_C7 (getToken : String → Option TokenInfo)
    (currentUser : Option SpotifyProfile) (newSessionId : String) (now : Int)
    (pending : Finset String) (db : Db) (code s : String)
    (getToken2 : String → Option TokenInfo)
    (currentUser2 : Option SpotifyProfile) (newSessionId2 : String)
    (now2 : Int) (code2 : String)
    (hse : s ≠ "") (hmem : s ∈ pending) :
    (handle_spotify_callback getToken currentUser newSessionId now pending db
      code (some s)).2.1 = pending.erase s ∧
    ((handle_spotify_callback getToken currentUser newSessionId now pending
      db code (some s)).2.1).card + 1 = pending.card ∧
    s ∉ (handle_spotify_callback getToken currentUser newSessionId now
      pending db code (some s)).2.1 ∧
    (getToken code = none →
      (handle_spotify_callback getToken currentUser newSessionId now pending
        db code (some s)).1.success = false ∧
      (handle_spotify_callback getToken2 currentUser2 newSessionId2 now2
        (handle_spotify_callback getToken currentUser newSessionId now
          pending db code (some s)).2.1
        (handle_spotify_callback getToken currentUser newSessionId now
          pending db code (some s)).2.2
        code2 (some s)).1.error = some "invalid_state") := by
  have h1 : (handle_spotify_callback getToken currentUser newSessionId now
      pending db code (some s)).2.1 = pending.erase s :=
    handle_pending_after getToken currentUser newSessionId now pending db
      code s hse hmem
  have h2 : s ∉ (handle_spotify_callback getToken currentUser newSessionId
      now pending db code (some s)).2.1 := by
    rw [h1]
    exact Finset.not_mem_erase s pending
  refine ⟨h1, ?_, h2, ?_⟩
  · rw [h1]
    exact Finset.card_erase_add_one hmem
  · intro ht
    constructor
    · rw [handle_token_error getToken currentUser newSessionId now pending db
        code s hse hmem ht]
    · rw [handle_invalid getToken2 currentUser2 newSessionId2 now2 _ _ code2
        s hse h2]

/-- Witness for C7 at a concrete pending state `s1` whose token exchange
fails. -/
theorem claim_C7_witness :
    (handle_spotify_callback (fun _ => none) (some wProfile) "sess1" 0
      {"s1"} wDb "c" (some "s1")).2.1 = ({"s1"} : Finset String).erase "s1" ∧
    ((handle_spotify_callback (fun _ => none) (some wProfile) "sess1" 0
      {"s1"} wDb "c" (some "s1")).2.1).card + 1 =
      ({"s1"} : Finset String).card ∧
    "s1" ∉ (handle_spotify_callback (fun _ => none) (some wProfile) "sess1" 0
      {"s1"} wDb "c" (some "s1")).2.1 ∧
    ((fun _ : String => (none : Option TokenInfo)) "c" = none →
      (handle_spotify_callback (fun _ => none) (some wProfile) "sess1" 0
        {"s1"} wDb "c" (some "s1")).1.success = false ∧
      (handle_spotify_callback (fun _ => none) (some wProfile) "sess2" 5
        (handle_spotify_callback (fun _ => none) (some wProfile) "sess1" 0
          {"s1"} wDb "c" (some "s1")).2.1
        (handle_spotify_callback (fun _ => none) (some wProfile) "sess1" 0
          {"s1"} wDb "c" (some "s1")).2.2
        "c2" (some "s1")).1.error = some "invalid_state") :=
  claim_C7 (fun _ => none) (some wProfile) "sess1" 0 {"s1"} wDb "c" "s1"
    (fun _ => none) (some wProfile) "sess2" 5 "c2" (by decide) (by decide)

/-- C8 (code bug): with a stored session `s1` present, `get_current_user`
does not return the associated user — it raises.  Session rows are
written with `expires_at`, so the expiry test `session.expired_at <
func.now()` dereferences a missing attribute; past that line the user
lookup filters on `user.spotify_id` with `user` still unbound, and the
module's own `from database import Session` fails since `database.py`
defines no `Session`. -/
theorem claim_C8 :
    get_current_user wDbWithSession (some "s1") =
      Except.error PyRuntimeError.attribute_error ∧
    get_current_user wDbWithSession none = Except.ok none ∧
    get_current_user wDbWithSession (some "") = Except.ok none ∧
    get_current_user wDbWithSession (some "absent") = Except.ok none := by
  refine ⟨rfl, rfl, rfl, rfl⟩

/-- C9 (code bug): the update path behaves as the claim says — a login
whose provider id matches an existing row refreshes only the three
credential columns, leaving display name, follower count, profile image
and creation time unchanged, keeping the table size and every other
user's row; but when no such record exists the source raises `TypeError`
instead of creating a full record, because `User(...)` is passed
`email`/`country` keywords the `User` model defines no columns for. -/
theorem claim_C9 (db : List UserRecord) (user : SpotifyProfile)
    (token_info : TokenInfo) (v : UserRecord) :
    (∀ u, db.find? (fun r => r.spotify_id == user.id) = some u →
      ∀ r, update_or_create_user db user token_info = Except.ok r →
      r.1.spotify_id = u.spotify_id ∧
      r.1.display_name = u.display_name ∧
      r.1.follower_count = u.follower_count ∧
      r.1.profile_image_url = u.profile_image_url ∧
      r.1.created_at = u.created_at ∧
      r.1.access_token = token_info.access_token ∧
      r.1.refresh_token = token_info.refresh_token ∧
      r.1.token_expires_at = token_info.expires_at ∧
      r.2.length = db.length ∧
      (v ∈ db → v.spotify_id ≠ user.id → v ∈ r.2)) ∧
    (db.find? (fun r => r.spotify_id == user.id) = none →
      update_or_create_user db user token_info =
        Except.error PyRuntimeError.type_error) := by
  constructor
  · intro u hu r hr
    simp only [update_or_create_user, hu] at hr
    injection hr with hr2
    subst hr2
    refine ⟨rfl, rfl, rfl, rfl, rfl, rfl, rfl, rfl, by simp, ?_⟩
    intro hv hvne
    have hfv : (v.spotify_id == user.id) = false :=
      beq_eq_false_iff_ne.mpr hvne
    have hm := List.mem_map_of_mem (fun w : UserRecord =>
      if w.spotify_id == user.id then
        { u with access_token := token_info.access_token,
                 refresh_token := token_info.refresh_token,
                 token_expires_at := token_info.expires_at }
      else w) hv
    simp only [hfv, Bool.false_eq_true, if_false] at hm
    exact hm
  · intro h0
    simp only [update_or_create_user, h0]

/-- Witness for C9: refreshing `u1` next to an untouched `u2`, and the
raising create path on an empty table (the code-bug failing input). -/
theorem claim_C9_witness :
    ((wUpdated, [wUpdated, wOther]) :
      UserRecord × List UserRecord).1.display_name = wUser.display_name ∧
    ((wUpdated, [wUpdated, wOther]) :
      UserRecord × List UserRecord).1.follower_count = wUser.follower_count ∧
    ((wUpdated, [wUpdated, wOther]) :
      UserRecord × List UserRecord).1.profile_image_url =
      wUser.profile_image_url ∧
    ((wUpdated, [wUpdated, wOther]) :
      UserRecord × List UserRecord).1.created_at = wUser.created_at ∧
    ((wUpdated, [wUpdated, wOther]) :
      UserRecord × List UserRecord).1.access_token = wToken.access_token ∧
    ((wUpdated, [wUpdated, wOther]) :
      UserRecord × List UserRecord).2.length =
      ([wUser, wOther] : List UserRecord).length ∧
    wOther ∈ ((wUpdated, [wUpdated, wOther]) :
      UserRecord × List UserRecord).2 ∧
    update_or_create_user [] wProfile wToken =
      Except.error PyRuntimeError.type_error := by
  have h := (claim_C9 [wUser, wOther] wProfile wToken wOther).1 wUser rfl
    (wUpdated, [wUpdated, wOther]) (by rfl)
  have h2 := (claim_C9 ([] : List UserRecord) wProfile wToken wOther).2 rfl
  obtain ⟨-, hdn, hfc, hpi, hca, hat, -, -, hlen, hmem⟩ := h
  exact ⟨hdn, hfc, hpi, hca, hat, hlen, hmem (by decide) (by decide), h2⟩

theorem formatLikedAux_append (i : Nat) (l1 l2 : List SavedItem) :
    formatLikedAux i (l1 ++ l2) =
      formatLikedAux i l1 ++ formatLikedAux (i + l1.length) l2 := by
  induction l1 generalizing i with
  | nil => simp [formatLikedAux]
  | cons a t ih =>
    obtain ⟨otr, aat⟩ := a
    have harith : i + 1 + t.length = i + (t.length + 1) := by omega
    cases otr with
    | none =>
      show formatLikedAux (i + 1) (t ++ l2) = _
      rw [ih (i + 1), harith]
      rfl
    | some tr =>
      show ({ index := i + 1, name := tr.name,
              artists := joinArtists tr.artists, id := tr.id,
              added_at := aat } : LikedRecord) ::
            formatLikedAux (i + 1) (t ++ l2) = _
      rw [ih (i + 1), harith]
      rfl

theorem formatLikedAux_all_some (i : Nat) (l : List SavedItem)
    (h : ∀ it ∈ l, it.track.isSome) :
    (formatLikedAux i l).length = l.length ∧
    (formatLikedAux i l).map (fun r => r.index) =
      List.range' (i + 1) l.length := by
  induction l generalizing i with
  | nil => simp [formatLikedAux]
  | cons a t ih =>
    obtain ⟨tr, ha⟩ :=
      Option.isSome_iff_exists.mp (h a (List.mem_cons_self a t))
    have ih2 := ih (i + 1) (fun it hit => h it (List.mem_cons_of_mem a hit))
    constructor
    · simp only [formatLikedAux, ha, List.length_cons, ih2.1]
    · simp only [formatLikedAux, ha, List.map_cons, List.length_cons,
        List.range'_succ, ih2.2]

/-- Counterexample to C2 as stated: a single liked-songs page holding one
null entry followed by 10 valid ones yields 10 records, but their index
values are 2..11, not the contiguous 1..10 the claim requires — the null
entry consumed the index slot 1. -/
theorem claim_C2_counterexample :
    ((get_liked_songs (fun _ => some wC2Items) 1).1).length = 10 ∧
    ((get_liked_songs (fun _ => some wC2Items) 1).1).map (fun r => r.index) =
      List.range' 2 10 ∧
    List.range' 2 10 ≠ List.range' 1 10 := by
  refine ⟨by decide, by decide, by decide⟩

/-- C2 (amended): null-track entries produce no record but do consume an
index slot.  For a single fetched page of `pre ++ [null] ++ post` with
every entry of `pre` and `post` live, the fetch yields
`pre.length + post.length` records whose index values are the 1-based
raw positions of the live entries: `1..pre.length` followed by
`pre.length+2 .. pre.length+post.length+1`.  They are contiguous
`1..10` for one null among 10 valid entries exactly when the null comes
last. -/
theorem claim_C2 (pre post : List SavedItem) (a : String) (fuel : Nat)
    (hf : 1 ≤ fuel)
    (hlen : (pre ++ { track := none, added_at := a } :: post).length < 50)
    (hpre : ∀ it ∈ pre, it.track.isSome)
    (hpost : ∀ it ∈ post, it.track.isSome) :
    ((get_liked_songs
        (fun _ => some (pre ++ { track := none, added_at := a } :: post))
        fuel).1).length = pre.length + post.length ∧
    ((get_liked_songs
        (fun _ => some (pre ++ { track := none, added_at := a } :: post))
        fuel).1).map (fun r => r.index) =
      List.range' 1 pre.length ++ List.range' (pre.length + 2) post.length := by
  obtain ⟨m, rfl⟩ : ∃ m, fuel = m + 1 := ⟨fuel - 1, by omega⟩
  have hp : paginateLoop
      (fun _ => some (pre ++ { track := none, added_at := a } :: post)) 50
      (m + 1) 0 =
      (pre ++ { track := none, added_at := a } :: post, 1) :=
    paginateLoop_short _ 50 m 0 _ rfl hlen
  have hpre2 := formatLikedAux_all_some 0 pre hpre
  have hpost2 := formatLikedAux_all_some (pre.length + 1) post hpost
  have hsplit : formatLikedSongs
      (pre ++ { track := none, added_at := a } :: post) =
      formatLikedAux 0 pre ++ formatLikedAux (pre.length + 1) post := by
    rw [formatLikedSongs, formatLikedAux_append]
    have hskip : formatLikedAux (0 + pre.length)
        ({ track := none, added_at := a } :: post) =
        formatLikedAux (0 + pre.length + 1) post := by
      simp [formatLikedAux]
    rw [hskip, Nat.zero_add]
  have hitems : (get_liked_songs
      (fun _ => some (pre ++ { track := none, added_at := a } :: post))
      (m + 1)).1 =
      formatLikedAux 0 pre ++ formatLikedAux (pre.length + 1) post := by
    simp only [get_liked_songs, hp]
    exact hsplit
  constructor
  · rw [hitems, List.length_append, hpre2.1, hpost2.1]
  · rw [hitems, List.map_append, hpre2.2, hpost2.2]

/-- Witness for C2 (amended): one null entry after 10 valid ones — the 10
records then carry the contiguous indexes 1..10. -/
theorem claim_C2_witness :
    ((get_liked_songs
        (fun _ => some (wSaved 10 ++
          { track := none, added_at := "d" } :: ([] : List SavedItem)))
        1).1).length = (wSaved 10).length + ([] : List SavedItem).length ∧
    ((get_liked_songs
        (fun _ => some (wSaved 10 ++
          { track := none, added_at := "d" } :: ([] : List SavedItem)))
        1).1).map (fun r => r.index) =
      List.range' 1 (wSaved 10).length ++
        List.range' ((wSaved 10).length + 2) ([] : List SavedItem).length :=
  claim_C2 (wSaved 10) [] "d" 1 (by decide) (by decide) (by decide)
    (by decide)
